import Mathlib

/-!
Verification development for the Jira reverse proxy (`jira-proxy-for-jetbrains-tasks`).

This file gives a shallow embedding, in Lean, of the proxy's core logic:

* `app/utils.py` — username extraction from an `Authorization` header and
  service-account Basic-auth header construction;
* `app/services/jira_client.py` — upstream request construction
  (`_create_headers`, `_make_request`) with its error classification, and the
  search-reconciliation workflow (`search_issues`);
* `app/exceptions.py` — the typed error hierarchy with its status codes;
* `app/error_handlers.py` — rendering of exceptions as HTTP responses;
* `app/routers/latest_api.py` — the `/rest/api/latest/search` route handler;
* `app/models/jira.py` — pydantic model validation performed by
  `SearchResult(**result_data)`.

Python strings are modelled as `List Char` (Lean `Char` is exactly a Unicode
scalar value, matching Python `str` code points); byte strings as `List Nat`
with values below 256.  The Python standard-library pieces the code relies on
(`base64.b64encode` / `b64decode`, UTF-8 encoding/decoding, `str.replace`,
`str.strip`, `str.split`) are implemented here following their documented
behaviour.  Fallible Python code is modelled with `Option` / `Except`; a raised
exception is an `Except.error` value.  The upstream Jira server is an oracle
mapping each constructed upstream request to a call outcome.
-/

set_option maxRecDepth 10000
set_option linter.unusedVariables false

/-- Convert a Lean string literal to the `List Char` representation used
throughout this development. -/
def chars (s : String) : List Char := s.toList

/-- Boolean test that `p` is an initial segment of `s` (model of Python
`str.startswith`). -/
def startsList : List Char → List Char → Bool
  | [], _ => true
  | _ :: _, [] => false
  | p :: ps, c :: cs => p = c && startsList ps cs

/-- Whitespace characters removed by Python `str.strip()` (the ASCII subset,
which is all the code paths modelled here can produce). -/
def isPySpace (c : Char) : Bool :=
  c = ' ' || c = '\t' || c = '\n' || c = '\x0d' || c = '\x0b' || c = '\x0c'

/-- Model of Python `str.strip()`: drop whitespace from both ends. -/
def pyStrip (s : List Char) : List Char :=
  ((s.dropWhile isPySpace).reverse.dropWhile isPySpace).reverse

/-- Fuel-indexed worker for `strReplace`; the fuel dominates the number of
characters still to scan, so `fuel = s.length` always suffices. -/
def strReplaceFuel (pat repl : List Char) : Nat → List Char → List Char
  | _, [] => []
  | 0, s => s
  | fuel + 1, c :: cs =>
    if pat ≠ [] ∧ startsList pat (c :: cs) then
      repl ++ strReplaceFuel pat repl fuel ((c :: cs).drop pat.length)
    else
      c :: strReplaceFuel pat repl fuel cs

/-- Model of Python `str.replace(pat, repl)` for a non-empty pattern: replace
every non-overlapping occurrence, scanning left to right. -/
def strReplace (pat repl s : List Char) : List Char :=
  strReplaceFuel pat repl s.length s

/-- The base64 alphabet (RFC 4648), as the byte value of the character for a
sextet below 64. -/
def b64Char (n : Nat) : Nat :=
  if n < 26 then 65 + n
  else if n < 52 then 97 + (n - 26)
  else if n < 62 then 48 + (n - 52)
  else if n = 62 then 43
  else 47

/-- Inverse of the base64 alphabet: the sextet encoded by a byte, or `none`
for a byte outside the alphabet. -/
def b64IndexOf (b : Nat) : Option Nat :=
  if 65 ≤ b ∧ b ≤ 90 then some (b - 65)
  else if 97 ≤ b ∧ b ≤ 122 then some (b - 97 + 26)
  else if 48 ≤ b ∧ b ≤ 57 then some (b - 48 + 52)
  else if b = 43 then some 62
  else if b = 47 then some 63
  else none

/-- Model of Python `base64.b64encode` on a byte string: standard base64 with
`=` (byte 61) padding. -/
def b64EncodeBytes : List Nat → List Nat
  | [] => []
  | [a] => [b64Char (a / 4), b64Char (a % 4 * 16), 61, 61]
  | [a, b] => [b64Char (a / 4), b64Char (a % 4 * 16 + b / 16), b64Char (b % 16 * 4), 61]
  | a :: b :: c :: rest =>
    b64Char (a / 4) :: b64Char (a % 4 * 16 + b / 16) :: b64Char (b % 16 * 4 + c / 64) ::
      b64Char (c % 64) :: b64EncodeBytes rest

/-- Decode a base64 character stream already filtered to alphabet and padding
bytes.  Quads are decoded in order; padding is accepted only at the very end;
a leftover group of fewer than four characters fails (Python's "Incorrect
padding" error). -/
def b64DecodeCore : List Nat → Option (List Nat)
  | [] => some []
  | c1 :: c2 :: c3 :: c4 :: rest =>
    match b64IndexOf c1, b64IndexOf c2 with
    | some n1, some n2 =>
      if c3 = 61 then
        if c4 = 61 ∧ rest = [] then some [n1 * 4 + n2 / 16] else none
      else
        match b64IndexOf c3 with
        | some n3 =>
          if c4 = 61 then
            if rest = [] then some [n1 * 4 + n2 / 16, n2 % 16 * 16 + n3 / 4] else none
          else
            match b64IndexOf c4 with
            | some n4 =>
              match b64DecodeCore rest with
              | some ds => some ((n1 * 4 + n2 / 16) :: (n2 % 16 * 16 + n3 / 4) ::
                  (n3 % 4 * 64 + n4) :: ds)
              | none => none
            | none => none
        | none => none
    | _, _ => none
  | _ => none

/-- Bytes kept by Python's lenient `base64.b64decode` (with `validate=False`
characters outside the alphabet are discarded before decoding; `=` is the
padding byte). -/
def isB64OrPad (b : Nat) : Bool :=
  (b64IndexOf b).isSome || b = 61

/-- Model of Python `base64.b64decode` on a byte string: discard bytes outside
the alphabet, then decode; `none` models the raised `binascii.Error`. -/
def b64DecodeBytes (s : List Nat) : Option (List Nat) :=
  b64DecodeCore (s.filter isB64OrPad)

/-- The characters of a base64-encoded byte string (base64 output is ASCII, so
each byte is a valid scalar value). -/
def b64EncodeChars (bs : List Nat) : List Char :=
  (b64EncodeBytes bs).map Char.ofNat

/-- UTF-8 encoding of a single Unicode scalar value, written with `/`, `%`,
`*`, `+` so the byte arithmetic stays within linear-arithmetic reach. -/
def utf8EncodeChar (n : Nat) : List Nat :=
  if n < 0x80 then [n]
  else if n < 0x800 then [0xC0 + n / 64, 0x80 + n % 64]
  else if n < 0x10000 then [0xE0 + n / 4096, 0x80 + n / 64 % 64, 0x80 + n % 64]
  else [0xF0 + n / 262144, 0x80 + n / 4096 % 64, 0x80 + n / 64 % 64, 0x80 + n % 64]

/-- Model of Python `str.encode("utf-8")`. -/
def utf8Encode (s : List Char) : List Nat :=
  (s.map (fun c => utf8EncodeChar c.toNat)).flatten

/-- Decode one UTF-8 scalar value from the front of a byte stream, rejecting
overlong forms, surrogates and out-of-range values exactly as a strict UTF-8
decoder (Python `bytes.decode("utf-8")`) does. -/
def utf8DecodeOne : List Nat → Option (Nat × List Nat)
  | [] => none
  | b0 :: rest =>
    if b0 < 0x80 then some (b0, rest)
    else if 0xC2 ≤ b0 ∧ b0 ≤ 0xDF then
      match rest with
      | b1 :: rest' =>
        if 0x80 ≤ b1 ∧ b1 ≤ 0xBF then some ((b0 - 0xC0) * 64 + (b1 - 0x80), rest')
        else none
      | [] => none
    else if 0xE0 ≤ b0 ∧ b0 ≤ 0xEF then
      match rest with
      | b1 :: b2 :: rest' =>
        if (if b0 = 0xE0 then 0xA0 ≤ b1 ∧ b1 ≤ 0xBF
            else if b0 = 0xED then 0x80 ≤ b1 ∧ b1 ≤ 0x9F
            else 0x80 ≤ b1 ∧ b1 ≤ 0xBF) ∧ 0x80 ≤ b2 ∧ b2 ≤ 0xBF then
          some ((b0 - 0xE0) * 4096 + (b1 - 0x80) * 64 + (b2 - 0x80), rest')
        else none
      | _ => none
    else if 0xF0 ≤ b0 ∧ b0 ≤ 0xF4 then
      match rest with
      | b1 :: b2 :: b3 :: rest' =>
        if (if b0 = 0xF0 then 0x90 ≤ b1 ∧ b1 ≤ 0xBF
            else if b0 = 0xF4 then 0x80 ≤ b1 ∧ b1 ≤ 0x8F
            else 0x80 ≤ b1 ∧ b1 ≤ 0xBF) ∧ 0x80 ≤ b2 ∧ b2 ≤ 0xBF ∧ 0x80 ≤ b3 ∧ b3 ≤ 0xBF then
          some ((b0 - 0xF0) * 262144 + (b1 - 0x80) * 4096 + (b2 - 0x80) * 64 + (b3 - 0x80),
            rest')
        else none
      | _ => none
    else none

/-- Fuel-indexed UTF-8 decoding loop; each step consumes at least one byte so
`fuel = bs.length` always suffices. -/
def utf8DecodeFuel : Nat → List Nat → Option (List Nat)
  | _, [] => some []
  | 0, _ :: _ => none
  | fuel + 1, b :: bs =>
    match utf8DecodeOne (b :: bs) with
    | some (cp, rest) =>
      match utf8DecodeFuel fuel rest with
      | some cps => some (cp :: cps)
      | none => none
    | none => none

/-- Model of Python `bytes.decode("utf-8")` at the code-point level; `none`
models the raised `UnicodeDecodeError`. -/
def utf8Decode (bs : List Nat) : Option (List Nat) :=
  utf8DecodeFuel bs.length bs

/-- Decoding a UTF-8 byte string to characters (every code point produced by
`utf8DecodeOne` is a valid scalar value by its range checks). -/
def utf8DecodeStr (bs : List Nat) : Option (List Char) :=
  (utf8Decode bs).map (fun cps => cps.map Char.ofNat)

/-- ASCII encoding of a character string, failing on any non-ASCII character
(model of the implicit ASCII encoding `base64.b64decode` applies to `str`
input). -/
def asciiEncode (s : List Char) : Option (List Nat) :=
  if s.all (fun c => c.toNat < 128) then some (s.map Char.toNat) else none

/-- The scheme marker `"Basic "` as an explicit character list. -/
def basicTag : List Char := ['B', 'a', 's', 'i', 'c', ' ']

/-- The scheme marker `"Bearer "` as an explicit character list. -/
def bearerTag : List Char := ['B', 'e', 'a', 'r', 'e', 'r', ' ']

/-- Model of `app/utils.py::extract_username_from_auth_header`.  The Python
function wraps its body in `try/except` and returns `None` on any failure;
here every failing sub-operation (`base64.b64decode`, `bytes.decode`) is
`Option`-valued and each failure branch yields `none`, so the model is total
exactly as the source never raises. -/
def extract_username_from_auth_header (authorization : List Char) : Option (List Char) :=
  if authorization = [] then none
  else if startsList basicTag authorization then
    let encoded := pyStrip (strReplace basicTag [] authorization)
    match asciiEncode encoded with
    | none => none
    | some bs =>
      match b64DecodeBytes bs with
      | none => none
      | some decoded =>
        match utf8DecodeStr decoded with
        | none => none
        | some cred =>
          if ':' ∈ cred then some (cred.takeWhile (fun c => c ≠ ':')) else none
  else if startsList bearerTag authorization then none
  else none

/-- Model of `app/utils.py::create_service_auth_header`: base64-encode
`username:api_token` (UTF-8) and attach the `Basic ` scheme. -/
def create_service_auth_header (username api_token : List Char) : List Char :=
  chars "Basic " ++ b64EncodeChars (utf8Encode (username ++ ':' :: api_token))

/-- JSON values as manipulated by the proxy (Python dict/list/str/int/bool/None
payloads parsed from upstream responses).  Numbers are modelled as integers;
the code paths embedded here never do arithmetic on JSON numbers. -/
inductive Json where
  | null : Json
  | bool : Bool → Json
  | num : Int → Json
  | str : List Char → Json
  | arr : List Json → Json
  | obj : List (List Char × Json) → Json

/-- First-match association-list lookup (Python dicts cannot hold duplicate
keys, so the first match is the only match). -/
def alistFind (k : List Char) : List (List Char × Json) → Option Json
  | [] => none
  | (k', v) :: rest => if k' = k then some v else alistFind k rest

/-- Model of Python `d.get(k)` on a JSON object (`none` on a non-object, whose
Python counterpart is an `AttributeError` path never exercised by the claims).
-/
def jsonGet (j : Json) (k : List Char) : Option Json :=
  match j with
  | Json.obj kvs => alistFind k kvs
  | _ => none

/-- Model of Python `d.get(k, default)`. -/
def jsonGetD (j : Json) (k : List Char) (d : Json) : Json :=
  match jsonGet j k with
  | some v => v
  | none => d

/-- Model of Python `k in d` on a JSON object. -/
def jsonHasKey (j : Json) (k : List Char) : Bool :=
  (jsonGet j k).isSome

/-- Model of Python `isinstance(x, dict)`. -/
def jsonIsObj : Json → Bool
  | Json.obj _ => true
  | _ => false

/-- Python truthiness of a JSON value (`None`, `False`, `0`, `""`, `[]` and
`{}` are falsy). -/
def jsonTruthy : Json → Bool
  | Json.null => false
  | Json.bool b => b
  | Json.num n => n ≠ 0
  | Json.str s => s ≠ []
  | Json.arr xs => !xs.isEmpty
  | Json.obj kvs => !kvs.isEmpty

/-- Python `str(x)` for the JSON scalars that can appear as an issue `id`
(used to build the per-issue endpoint path in an f-string). -/
def pyStrOfJson : Json → List Char
  | Json.str s => s
  | Json.num n => chars (toString n)
  | Json.bool true => chars "True"
  | Json.bool false => chars "False"
  | Json.null => chars "None"
  | _ => []

/-- Process-wide configuration (`app/config.py::Settings`), read-only after
startup.  Only the fields the embedded code paths read are modelled. -/
structure Settings where
  jira_base_url : List Char
  jira_service_username : List Char
  jira_service_api_token : List Char

/-- Model of Python `s.rstrip("/")` as applied to the configured base URL. -/
def rstripSlash (s : List Char) : List Char :=
  (s.reverse.dropWhile (fun c => c = '/')).reverse

/-- Model of `JiraClient.__init__`: the client's base URL with any trailing
slashes removed. -/
def clientBaseUrl (cfg : Settings) : List Char :=
  rstripSlash cfg.jira_base_url

/-- Model of `jira_client.py::JiraClient._create_headers`: service-account
Basic auth when both credentials are configured (non-empty), otherwise the
deliberately invalid header `"Basic "`; the `X-Atlassian-User` impersonation
header is appended exactly when a truthy (non-empty) acting user is given. -/
def create_headers (cfg : Settings) (acting_user : Option (List Char)) :
    List (List Char × List Char) :=
  let auth_header :=
    if cfg.jira_service_username ≠ [] ∧ cfg.jira_service_api_token ≠ [] then
      create_service_auth_header cfg.jira_service_username cfg.jira_service_api_token
    else
      chars "Basic "
  let base := [(chars "Authorization", auth_header),
    (chars "Content-Type", chars "application/json"),
    (chars "Accept", chars "application/json")]
  match acting_user with
  | some u => if u ≠ [] then base ++ [(chars "X-Atlassian-User", u)] else base
  | none => base

/-- An upstream HTTP request as assembled by `_make_request` and handed to
`httpx.AsyncClient.request`: method, absolute URL, headers, query parameters
and optional JSON body.  Immutable once built. -/
structure UpstreamRequest where
  method : List Char
  url : List Char
  headers : List (List Char × List Char)
  params : Option (List (List Char × Json))
  jsonData : Option Json

/-- Model of the request-construction part of `jira_client.py::_make_request`.
The `authorization` argument is the inbound request's `Authorization` header,
which the source accepts but never uses; it is kept here so that independence
from it can be stated. -/
def build_upstream_request (cfg : Settings) (method endpoint : List Char)
    (authorization : List Char) (params : Option (List (List Char × Json)))
    (jsonData : Option Json) (acting_user : Option (List Char)) : UpstreamRequest :=
  { method := method
    url := clientBaseUrl cfg ++ endpoint
    headers := create_headers cfg acting_user
    params := params
    jsonData := jsonData }

/-- The upstream server's reply to one HTTP call: a status code, the JSON
parse of the body (`none` when the body is not valid JSON) and the raw body
text. -/
structure UpstreamResponse where
  status : Nat
  jsonBody : Option Json
  text : List Char

/-- Outcome of one attempted upstream call, before classification: a response
arrived, the connection failed, the call timed out, or some other unexpected
exception was raised with the given message. -/
inductive CallOutcome where
  | response : UpstreamResponse → CallOutcome
  | connectFailure : CallOutcome
  | timeoutFailure : CallOutcome
  | otherFailure : List Char → CallOutcome

/-- The `JiraProxyException` subclasses of `app/exceptions.py`. -/
inductive JiraExcClass where
  | connectionE | authenticationE | notFoundE | permissionE | validationE
deriving DecidableEq

/-- The status code each exception class carries
(`app/exceptions.py`: 503, 401, 404, 403, 400). -/
def jiraExcStatus : JiraExcClass → Nat
  | JiraExcClass.connectionE => 503
  | JiraExcClass.authenticationE => 401
  | JiraExcClass.notFoundE => 404
  | JiraExcClass.permissionE => 403
  | JiraExcClass.validationE => 400

/-- The Python class name of each exception class (rendered as the error
`type` tag by `jira_proxy_exception_handler`). -/
def jiraExcName : JiraExcClass → List Char
  | JiraExcClass.connectionE => chars "JiraConnectionError"
  | JiraExcClass.authenticationE => chars "JiraAuthenticationError"
  | JiraExcClass.notFoundE => chars "JiraNotFoundError"
  | JiraExcClass.permissionE => chars "JiraPermissionError"
  | JiraExcClass.validationE => chars "JiraValidationError"

/-- The Python exceptions that can cross the layers modelled here: a typed
`JiraProxyException` with its class and message, a re-raised
`httpx.HTTPStatusError` carrying the raw upstream response, a FastAPI
`HTTPException`, or a pydantic `ValidationError` from model construction. -/
inductive PyExc where
  | jira : JiraExcClass → List Char → PyExc
  | httpStatusError : UpstreamResponse → PyExc
  | httpException : Nat → List Char → PyExc
  | pydanticError : PyExc

/-- Model of `jira_client.py::_make_request` outcome classification: 2xx with
a JSON body returns the parsed body; connect failures, timeouts, a 2xx body
that fails JSON parsing, and any other unexpected exception become
`JiraConnectionError`; 401/403/404/400 become the corresponding typed error;
any other non-2xx status re-raises the original `httpx.HTTPStatusError`. -/
def make_request (baseUrl : List Char) (outcome : CallOutcome) : Except PyExc Json :=
  match outcome with
  | CallOutcome.connectFailure =>
    Except.error (PyExc.jira JiraExcClass.connectionE
      (chars "Unable to connect to Jira at " ++ baseUrl))
  | CallOutcome.timeoutFailure =>
    Except.error (PyExc.jira JiraExcClass.connectionE (chars "Request to Jira timed out"))
  | CallOutcome.otherFailure msg =>
    Except.error (PyExc.jira JiraExcClass.connectionE
      (chars "Unexpected error communicating with Jira: " ++ msg))
  | CallOutcome.response r =>
    if 200 ≤ r.status ∧ r.status < 300 then
      match r.jsonBody with
      | some j => Except.ok j
      | none => Except.error (PyExc.jira JiraExcClass.connectionE
          (chars "Unexpected error communicating with Jira: " ++ r.text))
    else if r.status = 401 then
      Except.error (PyExc.jira JiraExcClass.authenticationE (chars "Invalid Jira credentials"))
    else if r.status = 403 then
      Except.error (PyExc.jira JiraExcClass.permissionE
        (chars "Insufficient permissions for Jira operation"))
    else if r.status = 404 then
      Except.error (PyExc.jira JiraExcClass.notFoundE (chars "Jira resource not found"))
    else if r.status = 400 then
      Except.error (PyExc.jira JiraExcClass.validationE (chars "Invalid request to Jira API"))
    else
      Except.error (PyExc.httpStatusError r)

/-- Validation check for a required `str` field (pydantic `id: str` etc.):
present and a string. -/
def okReqStr (o : Option Json) : Bool :=
  match o with
  | some (Json.str _) => true
  | _ => false

/-- Validation check for an `Optional[str]` field: missing, `None` or a
string. -/
def okOptStr (o : Option Json) : Bool :=
  match o with
  | none => true
  | some Json.null => true
  | some (Json.str _) => true
  | _ => false

/-- Validation check for an `Optional[Dict[...]]` field: missing, `None` or an
object. -/
def okOptDict (o : Option Json) : Bool :=
  match o with
  | none => true
  | some Json.null => true
  | some (Json.obj _) => true
  | _ => false

/-- Validation check for a `bool` field with a default: missing uses the
default, otherwise the value must be a boolean. -/
def okBoolDefault (o : Option Json) : Bool :=
  match o with
  | none => true
  | some (Json.bool _) => true
  | _ => false

/-- Validation check for an optional submodel field: missing or `None` is
fine, otherwise the submodel validator must accept the value. -/
def okOptSub (f : Json → Bool) (o : Option Json) : Bool :=
  match o with
  | none => true
  | some Json.null => true
  | some v => f v

/-- Model of pydantic validation of `app/models/jira.py::User`: `displayName`
is the only required field; `active` is a defaulted boolean. -/
def validUser (j : Json) : Bool :=
  jsonIsObj j &&
  okOptStr (jsonGet j (chars "accountId")) &&
  okOptStr (jsonGet j (chars "accountType")) &&
  okOptStr (jsonGet j (chars "name")) &&
  okOptStr (jsonGet j (chars "key")) &&
  okOptStr (jsonGet j (chars "emailAddress")) &&
  okReqStr (jsonGet j (chars "displayName")) &&
  okBoolDefault (jsonGet j (chars "active")) &&
  okOptStr (jsonGet j (chars "timeZone")) &&
  okOptStr (jsonGet j (chars "locale"))

/-- Model of pydantic validation of `app/models/jira.py::Priority`. -/
def validPriority (j : Json) : Bool :=
  jsonIsObj j &&
  okReqStr (jsonGet j (chars "id")) &&
  okReqStr (jsonGet j (chars "name")) &&
  okOptStr (jsonGet j (chars "iconUrl"))

/-- Model of pydantic validation of `app/models/jira.py::IssueType`. -/
def validIssueType (j : Json) : Bool :=
  jsonIsObj j &&
  okReqStr (jsonGet j (chars "id")) &&
  okReqStr (jsonGet j (chars "name")) &&
  okBoolDefault (jsonGet j (chars "subtask")) &&
  okOptStr (jsonGet j (chars "iconUrl")) &&
  okOptStr (jsonGet j (chars "description"))

/-- Model of pydantic validation of `app/models/jira.py::Status`. -/
def validStatus (j : Json) : Bool :=
  jsonIsObj j &&
  okReqStr (jsonGet j (chars "id")) &&
  okReqStr (jsonGet j (chars "name")) &&
  okOptStr (jsonGet j (chars "description")) &&
  okOptStr (jsonGet j (chars "iconUrl")) &&
  okOptDict (jsonGet j (chars "statusCategory"))

/-- Validation check for an `Optional[Dict[str, str]]` field: missing, `None`
or an object with string values. -/
def okOptStrDict (o : Option Json) : Bool :=
  match o with
  | none => true
  | some Json.null => true
  | some (Json.obj kvs) => kvs.all (fun kv => match kv.2 with
      | Json.str _ => true
      | _ => false)
  | _ => false

/-- Model of pydantic validation of `app/models/jira.py::Project`. -/
def validProject (j : Json) : Bool :=
  jsonIsObj j &&
  okReqStr (jsonGet j (chars "id")) &&
  okReqStr (jsonGet j (chars "key")) &&
  okReqStr (jsonGet j (chars "name")) &&
  okOptStr (jsonGet j (chars "description")) &&
  okOptSub validUser (jsonGet j (chars "lead")) &&
  okOptStr (jsonGet j (chars "projectTypeKey")) &&
  okOptStrDict (jsonGet j (chars "avatarUrls"))

/-- Model of pydantic validation of `app/models/jira.py::Fields` (every field
optional; typed submodels validated when present). -/
def validFieldsBag (j : Json) : Bool :=
  jsonIsObj j &&
  okOptStr (jsonGet j (chars "summary")) &&
  okOptStr (jsonGet j (chars "description")) &&
  okOptSub validUser (jsonGet j (chars "assignee")) &&
  okOptSub validUser (jsonGet j (chars "reporter")) &&
  okOptSub validPriority (jsonGet j (chars "priority")) &&
  okOptSub validStatus (jsonGet j (chars "status")) &&
  okOptDict (jsonGet j (chars "resolution")) &&
  okOptStr (jsonGet j (chars "created")) &&
  okOptStr (jsonGet j (chars "updated")) &&
  okOptSub validProject (jsonGet j (chars "project")) &&
  okOptSub validIssueType (jsonGet j (chars "issuetype"))

/-- Model of pydantic validation of `app/models/jira.py::Issue`: `id`, `key`,
`self` are required strings and `fields` is a required `Fields` payload.  An
issue stub lacking `fields` therefore fails validation. -/
def validIssue (j : Json) : Bool :=
  jsonIsObj j &&
  okReqStr (jsonGet j (chars "id")) &&
  okReqStr (jsonGet j (chars "key")) &&
  okReqStr (jsonGet j (chars "self")) &&
  (match jsonGet j (chars "fields") with
   | some fj => validFieldsBag fj
   | none => false) &&
  okOptStr (jsonGet j (chars "expand"))

/-- The `result_data` dictionary assembled by `search_issues` before
`SearchResult(**result_data)` is evaluated. -/
structure SearchResultData where
  expand : Json
  startAt : Int
  maxResults : Int
  total : Nat
  issues : List Json

/-- The `expand` value must be a string or `None` to satisfy
`expand: Optional[str]`. -/
def okExpandValue : Json → Bool
  | Json.str _ => true
  | Json.null => true
  | _ => false

/-- Model of `app/models/jira.py::SearchResult` after successful pydantic
validation.  The issue payloads are kept as the validated JSON objects; the
claims only inspect the sequence and the scalar metadata. -/
structure SearchResult where
  expand : Option (List Char)
  startAt : Int
  maxResults : Int
  total : Int
  issues : List Json

/-- Model of `SearchResult(**result_data)`: pydantic validation of the
assembled dictionary, `none` modelling the raised `ValidationError`. -/
def validateSearchResult (rd : SearchResultData) : Option SearchResult :=
  if okExpandValue rd.expand ∧ rd.issues.all validIssue then
    some { expand := match rd.expand with
             | Json.str s => some s
             | _ => none
           startAt := rd.startAt
           maxResults := rd.maxResults
           total := (rd.total : Int)
           issues := rd.issues }
  else none

/-- The issues list extracted by `data.get("issues", [])` (a non-list value
here would make the subsequent Python indexing/`len` calls raise; that shape
never arises from the endpoints modelled and is mapped to `[]`). -/
def issuesOf (data : Json) : List Json :=
  match jsonGet data (chars "issues") with
  | some (Json.arr xs) => xs
  | _ => []

/-- The reduced-form test of `search_issues`:
`issues and isinstance(issues[0], dict) and "fields" not in issues[0]`. -/
def reducedForm : List Json → Bool
  | [] => false
  | first :: _ => jsonIsObj first && !(jsonHasKey first (chars "fields"))

/-- Model of the secondary-fetch loop of `jira_client.py::search_issues`
(lines 176-193).  For each stub: a stub without `"id"` is skipped entirely
(nothing is appended); with `"id"` present, a truthy `"key"` means no fetch
and nothing appended; otherwise a secondary fetch is issued and its result is
appended, the bare `except` falling back to appending the original stub when
the fetch raises.  Returns the assembled `full_issues` list together with the
number of secondary fetches issued. -/
def processStubs (fetch : Json → Except PyExc Json) : List Json → List Json × Nat
  | [] => ([], 0)
  | issue :: rest =>
    let tail := processStubs fetch rest
    if jsonHasKey issue (chars "id") then
      let issue_key := jsonGetD issue (chars "key") Json.null
      if !jsonTruthy issue_key && jsonHasKey issue (chars "id") then
        match fetch (jsonGetD issue (chars "id") Json.null) with
        | Except.ok detail => (detail :: tail.1, tail.2 + 1)
        | Except.error _ => (issue :: tail.1, tail.2 + 1)
      else (tail.1, tail.2)
    else (tail.1, tail.2)

/-- Model of Python `",".join(fields)`. -/
def joinComma (fs : List (List Char)) : List Char :=
  List.intercalate (chars ",") fs

/-- Model of Python `s.split(",")` (no maxsplit). -/
def splitComma (s : List Char) : List (List Char) :=
  s.splitOn ','

/-- The query-parameter dictionary assembled by `search_issues`: `jql`,
`startAt`, `maxResults`, plus a comma-joined `fields` entry when a truthy
(non-`None`, non-empty) field list is given. -/
def searchParams (jql : List Char) (start_at max_results : Int)
    (fields : Option (List (List Char))) : List (List Char × Json) :=
  let base := [(chars "jql", Json.str jql),
    (chars "startAt", Json.num start_at),
    (chars "maxResults", Json.num max_results)]
  match fields with
  | some fs => if fs.isEmpty then base else base ++ [(chars "fields", Json.str (joinComma fs))]
  | none => base

/-- The primary search request `search_issues` sends: a GET of
`/rest/api/3/search/jql` with the assembled query parameters. -/
def primarySearchRequest (cfg : Settings) (authorization jql : List Char)
    (start_at max_results : Int) (fields : Option (List (List Char)))
    (acting_user : Option (List Char)) : UpstreamRequest :=
  build_upstream_request cfg (chars "GET") (chars "/rest/api/3/search/jql")
    authorization (some (searchParams jql start_at max_results fields)) none acting_user

/-- Model of `jira_client.py::JiraClient.search_issues`, returning the
outcome (a validated `SearchResult`, or the exception that propagates out)
together with the number of secondary per-issue fetches issued.  The upstream
server is the `oracle` argument, mapping each constructed request to a call
outcome.  A secondary fetch for a stub is a GET of
`/rest/api/3/issue/{id}` put through `make_request`; the bare `except` of the
source swallows whatever error it produces. -/
def search_issues_run (cfg : Settings) (oracle : UpstreamRequest → CallOutcome)
    (authorization jql : List Char) (start_at max_results : Int)
    (fields : Option (List (List Char))) (acting_user : Option (List Char)) :
    Except PyExc SearchResult × Nat :=
  let baseUrl := clientBaseUrl cfg
  let primary := primarySearchRequest cfg authorization jql start_at max_results fields
    acting_user
  match make_request baseUrl (oracle primary) with
  | Except.error e => (Except.error e, 0)
  | Except.ok data =>
    let issues := issuesOf data
    let fetch : Json → Except PyExc Json := fun idv =>
      make_request baseUrl (oracle (build_upstream_request cfg (chars "GET")
        (chars "/rest/api/3/issue/" ++ pyStrOfJson idv) authorization none none acting_user))
    if reducedForm issues then
      let processed := processStubs fetch issues
      let rd : SearchResultData :=
        { expand := jsonGetD data (chars "expand") (Json.str [])
          startAt := start_at
          maxResults := max_results
          total := issues.length
          issues := processed.1 }
      match validateSearchResult rd with
      | some sr => (Except.ok sr, processed.2)
      | none => (Except.error PyExc.pydanticError, processed.2)
    else
      let rd : SearchResultData :=
        { expand := jsonGetD data (chars "expand") (Json.str [])
          startAt := start_at
          maxResults := max_results
          total := issues.length
          issues := issues }
      match validateSearchResult rd with
      | some sr => (Except.ok sr, 0)
      | none => (Except.error PyExc.pydanticError, 0)

/-- Model of `jira_client.py::JiraClient.search_issues` itself (the value it
returns or the exception it raises). -/
def client_search_issues (cfg : Settings) (oracle : UpstreamRequest → CallOutcome)
    (authorization jql : List Char) (start_at max_results : Int)
    (fields : Option (List (List Char))) (acting_user : Option (List Char)) :
    Except PyExc SearchResult :=
  (search_issues_run cfg oracle authorization jql start_at max_results fields acting_user).1

/-- The number of secondary per-issue fetches `search_issues` issues for a
given invocation. -/
def search_fetch_count (cfg : Settings) (oracle : UpstreamRequest → CallOutcome)
    (authorization jql : List Char) (start_at max_results : Int)
    (fields : Option (List (List Char))) (acting_user : Option (List Char)) : Nat :=
  (search_issues_run cfg oracle authorization jql start_at max_results fields acting_user).2

/-- Model of the `GET /rest/api/latest/search` route handler
(`latest_api.py::search_issues`, lines 26-41): split the `fields` query
parameter on commas when truthy, call the client, and convert ANY exception
the client raises into `HTTPException(500, "Failed to search issues")`. -/
def route_search (cfg : Settings) (oracle : UpstreamRequest → CallOutcome)
    (jql : List Char) (startAt maxResults : Int) (fieldsQ : Option (List Char))
    (authorization : List Char) : Except PyExc SearchResult :=
  let field_list := match fieldsQ with
    | some s => if s ≠ [] then some (splitComma s) else none
    | none => none
  match client_search_issues cfg oracle authorization jql startAt maxResults field_list none with
  | Except.ok sr => Except.ok sr
  | Except.error _ =>
    Except.error (PyExc.httpException 500 (chars "Failed to search issues"))

/-- The JSON error rendering produced at the HTTP boundary: status code, the
error `type` tag and the error message. -/
structure HttpErrorBody where
  status : Nat
  errType : List Char
  message : List Char
deriving DecidableEq

/-- The message `httpx_exception_handler` chooses for a given upstream status
code. -/
def httpxHandlerMessage (status : Nat) : List Char :=
  if status = 401 then chars "Jira authentication failed"
  else if status = 403 then chars "Permission denied for Jira operation"
  else if status = 404 then chars "Jira resource not found"
  else if status = 429 then chars "Jira API rate limit exceeded"
  else if 500 ≤ status ∧ status < 600 then chars "Jira server error"
  else chars "Jira API error: " ++ chars (toString status)

/-- Model of the exception handlers registered in `app/main.py`
(`error_handlers.py`): a `JiraProxyException` is rendered with its own
`status_code` and class name; an `HTTPException` with its status and detail;
an `httpx.HTTPStatusError` with the original upstream status preserved and
the `JiraAPIError` tag; anything else (pydantic errors included) falls to the
generic 500 handler. -/
def render_exception : PyExc → HttpErrorBody
  | PyExc.jira cls msg =>
    { status := jiraExcStatus cls, errType := jiraExcName cls, message := msg }
  | PyExc.httpException status detail =>
    { status := status, errType := chars "HTTPException", message := detail }
  | PyExc.httpStatusError r =>
    { status := r.status, errType := chars "JiraAPIError",
      message := httpxHandlerMessage r.status }
  | PyExc.pydanticError =>
    { status := 500, errType := chars "InternalServerError",
      message := chars "Internal server error" }

/-- The proxy's HTTP response to the caller of the search endpoint: either a
200 with the serialized `SearchResult`, or an error body rendered by the
matching exception handler. -/
inductive ProxyResponse where
  | success : SearchResult → ProxyResponse
  | failure : HttpErrorBody → ProxyResponse

/-- End-to-end pipeline for `GET /rest/api/latest/search`: route handler plus
the exception-handler boundary. -/
def search_endpoint (cfg : Settings) (oracle : UpstreamRequest → CallOutcome)
    (jql : List Char) (startAt maxResults : Int) (fieldsQ : Option (List Char))
    (authorization : List Char) : ProxyResponse :=
  match route_search cfg oracle jql startAt maxResults fieldsQ authorization with
  | Except.ok sr => ProxyResponse.success sr
  | Except.error e => ProxyResponse.failure (render_exception e)

/-- First-match lookup in a header dictionary. -/
def headerFind (k : List Char) : List (List Char × List Char) → Option (List Char)
  | [] => none
  | (k', v) :: rest => if k' = k then some v else headerFind k rest

/-- The stubs of a reduced-form page that actually trigger a secondary fetch
and contribute an entry to `full_issues`: those carrying an `"id"` key whose
`"key"` value is falsy or absent. -/
def stubFetchable (i : Json) : Bool :=
  jsonHasKey i (chars "id") && !jsonTruthy (jsonGetD i (chars "key") Json.null)

/-- The length of the issues sequence of a returned `SearchResult`, or `none`
when the workflow raised instead of returning. -/
def searchIssuesLen (e : Except PyExc SearchResult) : Option Nat :=
  match e with
  | Except.ok sr => some sr.issues.length
  | Except.error _ => none

/-- The `total` field of a returned `SearchResult`, or `none` when the
workflow raised instead of returning. -/
def searchTotal (e : Except PyExc SearchResult) : Option Int :=
  match e with
  | Except.ok sr => some sr.total
  | Except.error _ => none

/-- Example deployment configuration used by the concrete scenarios below. -/
def exCfg : Settings :=
  { jira_base_url := chars "https://jira.example.com"
    jira_service_username := chars "svc"
    jira_service_api_token := chars "tok" }

/-- An upstream that answers every call with HTTP 401 (invalid credentials). -/
def oracle401 : UpstreamRequest → CallOutcome :=
  fun _ => CallOutcome.response { status := 401, jsonBody := some (Json.obj []), text := chars "Unauthorized" }

/-- An upstream that answers every call with HTTP 502 and a non-JSON body. -/
def oracle502 : UpstreamRequest → CallOutcome :=
  fun _ => CallOutcome.response { status := 502, jsonBody := none, text := chars "Bad Gateway" }

/-- A reduced-form search page with one stub carrying both an `"id"` and a
truthy `"key"` but no `"fields"` key. -/
def c2data : Json :=
  Json.obj [(chars "issues", Json.arr [Json.obj
    [(chars "id", Json.str (chars "10001")), (chars "key", Json.str (chars "PROJ-1"))]])]

/-- An upstream that answers the reduced-search endpoint with `c2data` and
fails every other call. -/
def c2oracle : UpstreamRequest → CallOutcome := fun req =>
  if req.url = chars "https://jira.example.com/rest/api/3/search/jql" then
    CallOutcome.response { status := 200, jsonBody := some c2data, text := chars "" }
  else CallOutcome.connectFailure

/-- A reduced-form search page with one stub carrying both an `"id"` and a
truthy `"key"` (distinct values from `c2data`), used for the `total` scenario. -/
def c3data : Json :=
  Json.obj [(chars "issues", Json.arr [Json.obj
    [(chars "id", Json.str (chars "42")), (chars "key", Json.str (chars "WEB-7"))]])]

/-- An upstream that answers the reduced-search endpoint with `c3data` and
fails every other call. -/
def c3oracle : UpstreamRequest → CallOutcome := fun req =>
  if req.url = chars "https://jira.example.com/rest/api/3/search/jql" then
    CallOutcome.response { status := 200, jsonBody := some c3data, text := chars "" }
  else CallOutcome.connectFailure

/-- A stub with an `"id"` but no `"key"` and no `"fields"`: its secondary
fetch is attempted. -/
def c5stub : Json := Json.obj [(chars "id", Json.str (chars "10001"))]

/-- A reduced-form search page consisting of the single stub `c5stub`. -/
def c5data : Json := Json.obj [(chars "issues", Json.arr [c5stub])]

/-- An upstream that answers the reduced-search endpoint with `c5data` and
fails every other call — in particular the secondary per-issue fetch. -/
def c5oracle : UpstreamRequest → CallOutcome := fun req =>
  if req.url = chars "https://jira.example.com/rest/api/3/search/jql" then
    CallOutcome.response { status := 200, jsonBody := some c5data, text := chars "" }
  else CallOutcome.connectFailure

/-- A fetch function that always fails, standing for the failing secondary
call of the `c5oracle` scenario. -/
def c5fetch : Json → Except PyExc Json :=
  fun _ => make_request (clientBaseUrl exCfg) CallOutcome.connectFailure

/-- A stub with a `"key"` but no `"id"` key (and no `"fields"`). -/
def c6stub : Json := Json.obj [(chars "key", Json.str (chars "WEB-9"))]

/-- A reduced-form search page consisting of the single stub `c6stub`. -/
def c6data : Json := Json.obj [(chars "issues", Json.arr [c6stub])]

/-- An upstream that answers the reduced-search endpoint with `c6data` and
fails every other call. -/
def c6oracle : UpstreamRequest → CallOutcome := fun req =>
  if req.url = chars "https://jira.example.com/rest/api/3/search/jql" then
    CallOutcome.response { status := 200, jsonBody := some c6data, text := chars "" }
  else CallOutcome.connectFailure

theorem toNat_ofNat_valid (n : Nat) (h : n.isValidChar) : (Char.ofNat n).toNat = n := by
  rw [Char.ofNat, dif_pos h]
  simp [Char.ofNatAux, Char.toNat, Nat.toUInt32, UInt32.toNat, UInt32.ofNat]

theorem char_toNat_valid (c : Char) : c.toNat.isValidChar := c.valid

theorem char_toNat_lt (c : Char) : c.toNat < 0x110000 := by
  rcases char_toNat_valid c with h | h
  · omega
  · omega

theorem isB64OrPad_bounds (b : Nat) (h : isB64OrPad b = true) :
    b < 128 ∧ b ≠ 32 ∧ b ≠ 9 ∧ b ≠ 10 ∧ b ≠ 13 ∧ b ≠ 11 ∧ b ≠ 12 := by
  unfold isB64OrPad b64IndexOf at h
  split_ifs at h <;> simp_all <;> omega

theorem b64IndexOf_b64Char : ∀ n, n < 64 → b64IndexOf (b64Char n) = some n := by decide

theorem isB64OrPad_b64Char (n : Nat) : isB64OrPad (b64Char n) = true := by
  by_cases h : n < 64
  · simp [isB64OrPad, b64IndexOf_b64Char n h]
  · have e : b64Char n = 47 := by
      unfold b64Char
      rw [if_neg (by omega), if_neg (by omega), if_neg (by omega), if_neg (by omega)]
    rw [e]
    decide

theorem mem_b64EncodeBytes : ∀ (bs : List Nat) (x : Nat), x ∈ b64EncodeBytes bs →
    isB64OrPad x = true
  | [], x, hx => by simp [b64EncodeBytes] at hx
  | [a], x, hx => by
    simp only [b64EncodeBytes, List.mem_cons, List.not_mem_nil, or_false] at hx
    rcases hx with h | h | h | h <;> subst h
    · exact isB64OrPad_b64Char _
    · exact isB64OrPad_b64Char _
    · decide
    · decide
  | [a, b], x, hx => by
    simp only [b64EncodeBytes, List.mem_cons, List.not_mem_nil, or_false] at hx
    rcases hx with h | h | h | h <;> subst h
    · exact isB64OrPad_b64Char _
    · exact isB64OrPad_b64Char _
    · exact isB64OrPad_b64Char _
    · decide
  | a :: b :: c :: e :: rest, x, hx => by
    simp only [b64EncodeBytes, List.mem_cons] at hx
    rcases hx with h | h | h | h | h
    · subst h; exact isB64OrPad_b64Char _
    · subst h; exact isB64OrPad_b64Char _
    · subst h; exact isB64OrPad_b64Char _
    · subst h; exact isB64OrPad_b64Char _
    · exact mem_b64EncodeBytes (e :: rest) x h
  | [a, b, c], x, hx => by
    simp only [b64EncodeBytes, List.mem_cons, List.not_mem_nil, or_false] at hx
    rcases hx with h | h | h | h <;> subst h <;> exact isB64OrPad_b64Char _

theorem b64Char_ne_pad : ∀ n, n < 64 → b64Char n ≠ 61 := by decide

theorem b64DecodeCore_encode : ∀ (bs : List Nat), (∀ b ∈ bs, b < 256) →
    b64DecodeCore (b64EncodeBytes bs) = some bs
  | [], _ => rfl
  | [a], h => by
    have ha : a < 256 := h a (by simp)
    have e1 := b64IndexOf_b64Char (a / 4) (by omega)
    have e2 := b64IndexOf_b64Char (a % 4 * 16) (by omega)
    simp [b64EncodeBytes, b64DecodeCore, e1, e2]
    omega
  | [a, b], h => by
    have ha : a < 256 := h a (by simp)
    have hb : b < 256 := h b (by simp)
    have e1 := b64IndexOf_b64Char (a / 4) (by omega)
    have e2 := b64IndexOf_b64Char (a % 4 * 16 + b / 16) (by omega)
    have e3 := b64IndexOf_b64Char (b % 16 * 4) (by omega)
    have ne3 : b64Char (b % 16 * 4) ≠ 61 := b64Char_ne_pad _ (by omega)
    simp [b64EncodeBytes, b64DecodeCore, e1, e2, e3, ne3]
    omega
  | a :: b :: c :: rest, h => by
    have ha : a < 256 := h a (by simp)
    have hb : b < 256 := h b (by simp)
    have hc : c < 256 := h c (by simp)
    have e1 := b64IndexOf_b64Char (a / 4) (by omega)
    have e2 := b64IndexOf_b64Char (a % 4 * 16 + b / 16) (by omega)
    have e3 := b64IndexOf_b64Char (b % 16 * 4 + c / 64) (by omega)
    have e4 := b64IndexOf_b64Char (c % 64) (by omega)
    have ne3 : b64Char (b % 16 * 4 + c / 64) ≠ 61 := b64Char_ne_pad _ (by omega)
    have ne4 : b64Char (c % 64) ≠ 61 := b64Char_ne_pad _ (by omega)
    have ih := b64DecodeCore_encode rest (fun x hx => h x (by simp [hx]))
    simp [b64EncodeBytes, b64DecodeCore, e1, e2, e3, e4, ne3, ne4, ih]
    omega

theorem b64DecodeBytes_encode (bs : List Nat) (h : ∀ b ∈ bs, b < 256) :
    b64DecodeBytes (b64EncodeBytes bs) = some bs := by
  unfold b64DecodeBytes
  rw [List.filter_eq_self.mpr (fun x hx => mem_b64EncodeBytes _ x hx)]
  exact b64DecodeCore_encode bs h

theorem utf8EncodeChar_ne_nil (n : Nat) : utf8EncodeChar n ≠ [] := by
  unfold utf8EncodeChar
  split_ifs <;> simp

theorem mem_utf8EncodeChar_lt (n : Nat) (hn : n < 0x110000) :
    ∀ x ∈ utf8EncodeChar n, x < 256 := by
  intro x hx
  unfold utf8EncodeChar at hx
  split_ifs at hx <;> simp_all <;> omega

theorem utf8Encode_lt (s : List Char) : ∀ b ∈ utf8Encode s, b < 256 := by
  intro b hb
  unfold utf8Encode at hb
  rw [List.mem_flatten] at hb
  obtain ⟨l, hl, hbl⟩ := hb
  rw [List.mem_map] at hl
  obtain ⟨c, _, hcl⟩ := hl
  subst hcl
  exact mem_utf8EncodeChar_lt c.toNat (char_toNat_lt c) b hbl

theorem utf8DecodeOne_encodeChar (n : Nat) (h : n.isValidChar) (rest : List Nat) :
    utf8DecodeOne (utf8EncodeChar n ++ rest) = some (n, rest) := by
  have h110 : n < 0x110000 := by rcases h with h | h <;> omega
  by_cases h1 : n < 0x80
  · simp [utf8EncodeChar, h1, utf8DecodeOne]
  · by_cases h2 : n < 0x800
    · have e : utf8EncodeChar n = [0xC0 + n / 64, 0x80 + n % 64] := by
        simp [utf8EncodeChar, h1, h2]
      rw [e]
      simp only [List.cons_append, List.nil_append, utf8DecodeOne]
      rw [if_neg (by omega), if_pos (by omega : 0xC2 ≤ 0xC0 + n / 64 ∧ 0xC0 + n / 64 ≤ 0xDF),
        if_pos (by omega : 0x80 ≤ 0x80 + n % 64 ∧ 0x80 + n % 64 ≤ 0xBF)]
      congr 1
      have : (0xC0 + n / 64 - 0xC0) * 64 + (0x80 + n % 64 - 0x80) = n := by omega
      rw [this]
    · by_cases h3 : n < 0x10000
      · have e : utf8EncodeChar n = [0xE0 + n / 4096, 0x80 + n / 64 % 64, 0x80 + n % 64] := by
          simp [utf8EncodeChar, h1, h2, h3]
        rw [e]
        simp only [List.cons_append, List.nil_append, utf8DecodeOne]
        rw [if_neg (by omega), if_neg (by omega), if_pos (by omega :
          0xE0 ≤ 0xE0 + n / 4096 ∧ 0xE0 + n / 4096 ≤ 0xEF)]
        have hcond : (if 0xE0 + n / 4096 = 0xE0 then
              0xA0 ≤ 0x80 + n / 64 % 64 ∧ 0x80 + n / 64 % 64 ≤ 0xBF
            else if 0xE0 + n / 4096 = 0xED then
              0x80 ≤ 0x80 + n / 64 % 64 ∧ 0x80 + n / 64 % 64 ≤ 0x9F
            else 0x80 ≤ 0x80 + n / 64 % 64 ∧ 0x80 + n / 64 % 64 ≤ 0xBF) := by
          by_cases c0 : n / 4096 = 0
          · rw [if_pos (by omega)]
            omega
          · by_cases c13 : n / 4096 = 13
            · rw [if_neg (by omega), if_pos (by omega)]
              rcases h with h | h
              · omega
              · omega
            · rw [if_neg (by omega), if_neg (by omega)]
              omega
        rw [if_pos ⟨hcond, by omega, by omega⟩]
        congr 1
        have : (0xE0 + n / 4096 - 0xE0) * 4096 + (0x80 + n / 64 % 64 - 0x80) * 64 +
            (0x80 + n % 64 - 0x80) = n := by omega
        rw [this]
      · have e : utf8EncodeChar n = [0xF0 + n / 262144, 0x80 + n / 4096 % 64,
            0x80 + n / 64 % 64, 0x80 + n % 64] := by
          simp [utf8EncodeChar, h1, h2, h3]
        rw [e]
        simp only [List.cons_append, List.nil_append, utf8DecodeOne]
        rw [if_neg (by omega), if_neg (by omega), if_neg (by omega), if_pos (by omega :
          0xF0 ≤ 0xF0 + n / 262144 ∧ 0xF0 + n / 262144 ≤ 0xF4)]
        have hcond : (if 0xF0 + n / 262144 = 0xF0 then
              0x90 ≤ 0x80 + n / 4096 % 64 ∧ 0x80 + n / 4096 % 64 ≤ 0xBF
            else if 0xF0 + n / 262144 = 0xF4 then
              0x80 ≤ 0x80 + n / 4096 % 64 ∧ 0x80 + n / 4096 % 64 ≤ 0x8F
            else 0x80 ≤ 0x80 + n / 4096 % 64 ∧ 0x80 + n / 4096 % 64 ≤ 0xBF) := by
          by_cases c0 : n / 262144 = 0
          · rw [if_pos (by omega)]
            omega
          · by_cases c4 : n / 262144 = 4
            · rw [if_neg (by omega), if_pos (by omega)]
              omega
            · rw [if_neg (by omega), if_neg (by omega)]
              omega
        rw [if_pos ⟨hcond, by omega, by omega, by omega⟩]
        congr 1
        have : (0xF0 + n / 262144 - 0xF0) * 262144 + (0x80 + n / 4096 % 64 - 0x80) * 4096 +
            (0x80 + n / 64 % 64 - 0x80) * 64 + (0x80 + n % 64 - 0x80) = n := by omega
        rw [this]

theorem utf8Encode_cons (c : Char) (cs : List Char) :
    utf8Encode (c :: cs) = utf8EncodeChar c.toNat ++ utf8Encode cs := by
  simp [utf8Encode]

theorem utf8DecodeFuel_encode : ∀ (cs : List Char) (fuel : Nat),
    (utf8Encode cs).length ≤ fuel →
    utf8DecodeFuel fuel (utf8Encode cs) = some (cs.map Char.toNat)
  | [], fuel, _ => by
    simp [utf8Encode, utf8DecodeFuel]
  | c :: cs, fuel, hf => by
    rw [utf8Encode_cons] at hf ⊢
    have hne := utf8EncodeChar_ne_nil c.toNat
    obtain ⟨b, bs, hb⟩ : ∃ b bs, utf8EncodeChar c.toNat = b :: bs := by
      cases he : utf8EncodeChar c.toNat with
      | nil => exact absurd he hne
      | cons b bs => exact ⟨b, bs, rfl⟩
    obtain ⟨f, hfeq⟩ : ∃ f, fuel = f + 1 := by
      rw [hb] at hf
      simp at hf
      cases fuel with
      | zero => omega
      | succ f => exact ⟨f, rfl⟩
    subst hfeq
    rw [hb, List.cons_append]
    show utf8DecodeFuel (f + 1) (b :: (bs ++ utf8Encode cs)) = _
    rw [utf8DecodeFuel]
    have hone : utf8DecodeOne (b :: (bs ++ utf8Encode cs)) = some (c.toNat, utf8Encode cs) := by
      rw [← List.cons_append, ← hb]
      exact utf8DecodeOne_encodeChar c.toNat (char_toNat_valid c) (utf8Encode cs)
    rw [hone]
    have hrec : utf8DecodeFuel f (utf8Encode cs) = some (cs.map Char.toNat) := by
      apply utf8DecodeFuel_encode
      have hlen : (b :: (bs ++ utf8Encode cs)).length ≤ f + 1 := by
        rw [hb, List.cons_append] at hf
        exact hf
      simp at hlen
      omega
    simp [hrec]

theorem utf8Decode_encode (cs : List Char) :
    utf8Decode (utf8Encode cs) = some (cs.map Char.toNat) :=
  utf8DecodeFuel_encode cs (utf8Encode cs).length (le_refl _)

theorem utf8DecodeStr_encode (cs : List Char) :
    utf8DecodeStr (utf8Encode cs) = some cs := by
  unfold utf8DecodeStr
  rw [utf8Decode_encode]
  simp [Function.comp_def, Char.ofNat_toNat]

theorem startsList_iff (p s : List Char) : startsList p s = true ↔ ∃ t, s = p ++ t := by
  induction p generalizing s with
  | nil => simp [startsList]
  | cons a ps ih =>
    cases s with
    | nil =>
      simp [startsList]
    | cons c cs =>
      simp only [startsList, Bool.and_eq_true, decide_eq_true_eq, ih]
      constructor
      · rintro ⟨rfl, t, rfl⟩
        exact ⟨t, rfl⟩
      · rintro ⟨t, ht⟩
        injection ht with h1 h2
        exact ⟨h1.symm, t, h2⟩

theorem startsList_append (p t : List Char) : startsList p (p ++ t) = true :=
  (startsList_iff p (p ++ t)).mpr ⟨t, rfl⟩

theorem space_mem_basicTag : ' ' ∈ basicTag := by decide

theorem startsList_basicTag_false (s : List Char) (hs : ' ' ∉ s) :
    startsList basicTag s = false := by
  by_contra hc
  rw [Bool.not_eq_false, startsList_iff] at hc
  obtain ⟨t, rfl⟩ := hc
  exact hs (List.mem_append_left t space_mem_basicTag)

theorem strReplaceFuel_id (repl s : List Char) : ∀ (fuel : Nat), s.length ≤ fuel →
    ' ' ∉ s → strReplaceFuel basicTag repl fuel s = s := by
  induction s with
  | nil =>
    intro fuel _ _
    cases fuel <;> rfl
  | cons c cs ih =>
    intro fuel hf hs
    cases fuel with
    | zero => simp at hf
    | succ f =>
      rw [strReplaceFuel]
      rw [if_neg]
      · have : ' ' ∉ cs := fun h => hs (List.mem_cons_of_mem c h)
        rw [ih f (by simpa using hf) this]
      · rintro ⟨-, hstart⟩
        rw [startsList_basicTag_false (c :: cs) hs] at hstart
        exact Bool.false_ne_true hstart

theorem strReplace_basicTag (s : List Char) (hs : ' ' ∉ s) :
    strReplace basicTag [] (basicTag ++ s) = s := by
  unfold strReplace
  show strReplaceFuel basicTag [] (basicTag ++ s).length (basicTag ++ s) = s
  have hlen : (basicTag ++ s).length = s.length + 6 := by simp [basicTag]
  rw [hlen]
  show strReplaceFuel basicTag [] (s.length + 6) ('B' :: ('a' :: ('s' :: ('i' :: ('c' :: (' ' :: s)))))) = s
  rw [strReplaceFuel]
  rw [if_pos ⟨by simp [basicTag], startsList_append basicTag s⟩]
  have hdrop : (('B' : Char) :: ('a' :: ('s' :: ('i' :: ('c' :: (' ' :: s)))))).drop basicTag.length = s := by
    simp [basicTag]
  rw [hdrop]
  simp only [List.nil_append]
  exact strReplaceFuel_id [] s (s.length + 5) (by omega) hs

theorem dropWhile_eq_self_of_head (p : Char → Bool) (s : List Char)
    (h : ∀ c ∈ s, p c = false) : s.dropWhile p = s := by
  cases s with
  | nil => rfl
  | cons c cs =>
    rw [List.dropWhile_cons, if_neg]
    rw [h c (by simp)]
    simp

theorem pyStrip_id (s : List Char) (h : ∀ c ∈ s, isPySpace c = false) : pyStrip s = s := by
  unfold pyStrip
  rw [dropWhile_eq_self_of_head isPySpace s h]
  rw [dropWhile_eq_self_of_head isPySpace s.reverse (fun c hc => h c (List.mem_reverse.mp hc))]
  exact List.reverse_reverse s

theorem b64EncodeChars_toNat (bs : List Nat) :
    ∀ c ∈ b64EncodeChars bs, c.toNat < 128 ∧ isPySpace c = false ∧ c ≠ ' ' := by
  intro c hc
  unfold b64EncodeChars at hc
  rw [List.mem_map] at hc
  obtain ⟨b, hb, rfl⟩ := hc
  have hbp := isB64OrPad_bounds b (mem_b64EncodeBytes bs b hb)
  have hval : b.isValidChar := Or.inl (by omega)
  have ht : (Char.ofNat b).toNat = b := toNat_ofNat_valid b hval
  refine ⟨by omega, ?_, ?_⟩
  · unfold isPySpace
    have h32 : Char.ofNat b ≠ ' ' := by
      intro he
      have : (Char.ofNat b).toNat = 32 := by rw [he]; rfl
      omega
    have h9 : Char.ofNat b ≠ '\t' := by
      intro he
      have : (Char.ofNat b).toNat = 9 := by rw [he]; rfl
      omega
    have h10 : Char.ofNat b ≠ '\n' := by
      intro he
      have : (Char.ofNat b).toNat = 10 := by rw [he]; rfl
      omega
    have h13 : Char.ofNat b ≠ '\x0d' := by
      intro he
      have : (Char.ofNat b).toNat = 13 := by rw [he]; rfl
      omega
    have h11 : Char.ofNat b ≠ '\x0b' := by
      intro he
      have : (Char.ofNat b).toNat = 11 := by rw [he]; rfl
      omega
    have h12 : Char.ofNat b ≠ '\x0c' := by
      intro he
      have : (Char.ofNat b).toNat = 12 := by rw [he]; rfl
      omega
    simp [h32, h9, h10, h13, h11, h12]
  · intro he
    have : (Char.ofNat b).toNat = 32 := by rw [he]; rfl
    omega

theorem asciiEncode_b64EncodeChars (bs : List Nat) :
    asciiEncode (b64EncodeChars bs) = some (b64EncodeBytes bs) := by
  unfold asciiEncode
  rw [if_pos]
  · congr 1
    unfold b64EncodeChars
    rw [List.map_map]
    have : ∀ b ∈ b64EncodeBytes bs, (Char.toNat ∘ Char.ofNat) b = id b := by
      intro b hb
      have hbp := isB64OrPad_bounds b (mem_b64EncodeBytes bs b hb)
      simp [toNat_ofNat_valid b (Or.inl (by omega))]
    rw [List.map_congr_left this, List.map_id]
  · rw [List.all_eq_true]
    intro c hc
    exact decide_eq_true (b64EncodeChars_toNat bs c hc).1

theorem takeWhile_before_colon (u p : List Char) (hu : ':' ∉ u) :
    (u ++ ':' :: p).takeWhile (fun c => c ≠ ':') = u := by
  induction u with
  | nil => simp [List.takeWhile_cons]
  | cons a us ih =>
    have ha : a ≠ ':' := fun he => hu (by simp [he])
    rw [List.cons_append, List.takeWhile_cons, if_pos (by simp [ha])]
    rw [ih (fun hm => hu (List.mem_cons_of_mem a hm))]

theorem basicTag_ne_nil : basicTag ≠ [] := by decide

theorem b64EncodeChars_no_space (bs : List Nat) : ' ' ∉ b64EncodeChars bs := by
  intro hm
  exact absurd rfl (b64EncodeChars_toNat bs ' ' hm).2.2

theorem extract_cred_chain (s : List Char) :
    extract_username_from_auth_header (basicTag ++ b64EncodeChars (utf8Encode s)) =
      (if ':' ∈ s then some (s.takeWhile (fun c => c ≠ ':')) else none) := by
  have hne : basicTag ++ b64EncodeChars (utf8Encode s) ≠ [] := by
    intro he
    rw [List.append_eq_nil] at he
    exact basicTag_ne_nil he.1
  have hrepl : pyStrip (strReplace basicTag [] (basicTag ++ b64EncodeChars (utf8Encode s))) =
      b64EncodeChars (utf8Encode s) := by
    rw [strReplace_basicTag _ (b64EncodeChars_no_space _)]
    exact pyStrip_id _ (fun c hc => (b64EncodeChars_toNat _ c hc).2.1)
  unfold extract_username_from_auth_header
  rw [if_neg hne, if_pos (startsList_append basicTag _)]
  simp only [hrepl, asciiEncode_b64EncodeChars, b64DecodeBytes_encode _ (utf8Encode_lt s),
    utf8DecodeStr_encode]

theorem startsList_basic_of_bearer (a : List Char) :
    startsList basicTag (bearerTag ++ a) = false := by
  by_contra hc
  rw [Bool.not_eq_false, startsList_iff] at hc
  obtain ⟨t, ht⟩ := hc
  rw [show bearerTag = 'B' :: 'e' :: ['a', 'r', 'e', 'r', ' '] from rfl,
    show basicTag = 'B' :: 'a' :: ['s', 'i', 'c', ' '] from rfl] at ht
  simp at ht

theorem bearerTag_append_ne_nil (a : List Char) : bearerTag ++ a ≠ [] := by
  intro he
  rw [List.append_eq_nil] at he
  exact absurd he.1 (by decide)

theorem extract_bearer (a : List Char) :
    extract_username_from_auth_header (bearerTag ++ a) = none := by
  unfold extract_username_from_auth_header
  rw [if_neg (bearerTag_append_ne_nil a)]
  rw [if_neg (by rw [startsList_basic_of_bearer a]; exact Bool.false_ne_true)]
  rw [if_pos (startsList_append bearerTag a)]

/-- C8: the username extraction function is total (it returns a value — `none`
or `some` — on every input, every internal failure degrading to `none`), and:
a `Basic` credential built from a colon-free username `u` and any password `p`
extracts exactly `u` (split at the first colon); any `Bearer` header yields no
username; a `Basic` payload whose decoded credential has no colon yields no
username; and a `Basic` payload that fails base64 decoding yields no
username. -/
theorem c8_extract_username_total_and_correct (u p a : List Char) (hu : ':' ∉ u) :
    extract_username_from_auth_header
      (basicTag ++ b64EncodeChars (utf8Encode (u ++ ':' :: p))) = some u ∧
    extract_username_from_auth_header (bearerTag ++ a) = none ∧
    extract_username_from_auth_header (basicTag ++ b64EncodeChars (utf8Encode u)) = none ∧
    extract_username_from_auth_header (chars "Basic Q") = none ∧
    (extract_username_from_auth_header a = none ∨
      ∃ w, extract_username_from_auth_header a = some w) := by
  refine ⟨?_, extract_bearer a, ?_, by decide, ?_⟩
  · rw [extract_cred_chain]
    rw [if_pos (by simp : ':' ∈ u ++ ':' :: p)]
    rw [takeWhile_before_colon u p hu]
  · rw [extract_cred_chain]
    rw [if_neg hu]
  · cases h : extract_username_from_auth_header a with
    | none => exact Or.inl rfl
    | some w => exact Or.inr ⟨w, rfl⟩

/-- Witness for C8 at the spec's own example: `"Basic " + base64("alice:secret")`
extracts `"alice"`, and `"Bearer abc123"` extracts nothing. -/
theorem c8_witness :
    extract_username_from_auth_header (chars "Basic YWxpY2U6c2VjcmV0") = some (chars "alice") ∧
    extract_username_from_auth_header (chars "Bearer abc123") = none := by
  have h := c8_extract_username_total_and_correct (chars "alice") (chars "secret")
    (chars "abc123") (by decide)
  refine ⟨?_, ?_⟩
  · have e : chars "Basic YWxpY2U6c2VjcmV0" =
        basicTag ++ b64EncodeChars (utf8Encode (chars "alice" ++ ':' :: chars "secret")) := by
      decide
    rw [e]
    exact h.1
  · have e : chars "Bearer abc123" = bearerTag ++ chars "abc123" := by decide
    rw [e]
    exact h.2.1

/-- C9: header construction for upstream calls.  With both service-account
credentials configured (non-empty), the `Authorization` header is exactly
`"Basic "` followed by the base64 of `username:api_token`; with the pair
unset, it is the deliberately invalid header `"Basic "`; and the
`X-Atlassian-User` impersonation header is present exactly when a truthy
acting user is supplied, and omitted entirely otherwise.  The last conjunct
checks the spec's concrete example: `svc`/`tok` yields
`"Basic c3ZjOnRvaw=="`. -/
theorem c9_header_construction (cfg : Settings) (acting_user : Option (List Char)) :
    headerFind (chars "Authorization") (create_headers cfg acting_user) =
      some (if cfg.jira_service_username ≠ [] ∧ cfg.jira_service_api_token ≠ [] then
        chars "Basic " ++
          b64EncodeChars (utf8Encode (cfg.jira_service_username ++ ':' ::
            cfg.jira_service_api_token))
      else chars "Basic ") ∧
    headerFind (chars "X-Atlassian-User") (create_headers cfg acting_user) =
      (match acting_user with
       | some user => if user ≠ [] then some user else none
       | none => none) ∧
    create_service_auth_header (chars "svc") (chars "tok") = chars "Basic c3ZjOnRvaw==" := by
  refine ⟨?_, ?_, by decide⟩
  · cases acting_user with
    | none => rfl
    | some u =>
      cases u with
      | nil => rfl
      | cons c cs => rfl
  · cases acting_user with
    | none => rfl
    | some u =>
      cases u with
      | nil => rfl
      | cons c cs => rfl

/-- C10: the upstream request built by the call executor is independent of the
inbound `authorization` argument — two invocations differing only in it build
identical upstream requests, and the whole search workflow behaves
identically; the upstream `Authorization` header is determined solely by the
configured service credentials and the optional acting user. -/
theorem c10_upstream_request_independent_of_authorization (cfg : Settings)
    (oracle : UpstreamRequest → CallOutcome) (method endpoint a1 a2 jql : List Char)
    (params : Option (List (List Char × Json))) (jsonData : Option Json)
    (acting_user : Option (List Char)) (start_at max_results : Int)
    (fields : Option (List (List Char))) :
    build_upstream_request cfg method endpoint a1 params jsonData acting_user =
      build_upstream_request cfg method endpoint a2 params jsonData acting_user ∧
    search_issues_run cfg oracle a1 jql start_at max_results fields acting_user =
      search_issues_run cfg oracle a2 jql start_at max_results fields acting_user :=
  ⟨rfl, rfl⟩

/-- C4: outcome classification of a single upstream call by `_make_request`:
connect failure, timeout and any unexpected exception map to
`JiraConnectionError` (with the stated messages, the first naming the base
URL); upstream 401/403/404/400 map to the corresponding typed error whose
class carries exactly that status code; and a 2xx response returns the parsed
JSON body. -/
theorem c4_make_request_classification (baseUrl : List Char) (r : UpstreamResponse)
    (msg : List Char) :
    make_request baseUrl CallOutcome.connectFailure =
      Except.error (PyExc.jira JiraExcClass.connectionE
        (chars "Unable to connect to Jira at " ++ baseUrl)) ∧
    make_request baseUrl CallOutcome.timeoutFailure =
      Except.error (PyExc.jira JiraExcClass.connectionE (chars "Request to Jira timed out")) ∧
    make_request baseUrl (CallOutcome.otherFailure msg) =
      Except.error (PyExc.jira JiraExcClass.connectionE
        (chars "Unexpected error communicating with Jira: " ++ msg)) ∧
    (r.status = 401 → make_request baseUrl (CallOutcome.response r) =
      Except.error (PyExc.jira JiraExcClass.authenticationE
        (chars "Invalid Jira credentials"))) ∧
    (r.status = 403 → make_request baseUrl (CallOutcome.response r) =
      Except.error (PyExc.jira JiraExcClass.permissionE
        (chars "Insufficient permissions for Jira operation"))) ∧
    (r.status = 404 → make_request baseUrl (CallOutcome.response r) =
      Except.error (PyExc.jira JiraExcClass.notFoundE (chars "Jira resource not found"))) ∧
    (r.status = 400 → make_request baseUrl (CallOutcome.response r) =
      Except.error (PyExc.jira JiraExcClass.validationE
        (chars "Invalid request to Jira API"))) ∧
    (∀ j, 200 ≤ r.status → r.status < 300 → r.jsonBody = some j →
      make_request baseUrl (CallOutcome.response r) = Except.ok j) ∧
    jiraExcStatus JiraExcClass.authenticationE = 401 ∧
    jiraExcStatus JiraExcClass.permissionE = 403 ∧
    jiraExcStatus JiraExcClass.notFoundE = 404 ∧
    jiraExcStatus JiraExcClass.validationE = 400 := by
  refine ⟨rfl, rfl, rfl, ?_, ?_, ?_, ?_, ?_, rfl, rfl, rfl, rfl⟩
  · intro h
    simp [make_request, h]
  · intro h
    simp [make_request, h]
  · intro h
    simp [make_request, h]
  · intro h
    simp [make_request, h]
  · intro j h1 h2 hj
    simp only [make_request]
    rw [if_pos ⟨h1, h2⟩, hj]

/-- Witness for C4: a concrete 401 response is classified as
`JiraAuthenticationError`, and a concrete 204 response returns its parsed
body. -/
theorem c4_witness :
    make_request (chars "http://jira") (CallOutcome.response
      { status := 401, jsonBody := some Json.null, text := chars "" }) =
      Except.error (PyExc.jira JiraExcClass.authenticationE
        (chars "Invalid Jira credentials")) ∧
    make_request (chars "http://jira") (CallOutcome.response
      { status := 204, jsonBody := some Json.null, text := chars "" }) =
      Except.ok Json.null := by
  have h1 := c4_make_request_classification (chars "http://jira")
    { status := 401, jsonBody := some Json.null, text := chars "" } (chars "")
  have h2 := c4_make_request_classification (chars "http://jira")
    { status := 204, jsonBody := some Json.null, text := chars "" } (chars "")
  exact ⟨h1.2.2.2.1 rfl, h2.2.2.2.2.2.2.2.1 Json.null (by decide) (by decide) rfl⟩

theorem processStubs_eq (fetch : Json → Except PyExc Json) : ∀ (issues : List Json),
    processStubs fetch issues =
      ((issues.filter stubFetchable).map (fun i =>
        match fetch (jsonGetD i (chars "id") Json.null) with
        | Except.ok detail => detail
        | Except.error _ => i),
       (issues.filter stubFetchable).length)
  | [] => rfl
  | issue :: rest => by
    have ih := processStubs_eq fetch rest
    simp only [processStubs, ih]
    by_cases hid : jsonHasKey issue (chars "id")
    · by_cases hkey : jsonTruthy (jsonGetD issue (chars "key") Json.null)
      · have hf : stubFetchable issue = false := by
          simp [stubFetchable, hid, hkey]
        simp [hid, hkey, List.filter_cons, hf]
      · have hf : stubFetchable issue = true := by
          simp [stubFetchable, hid, hkey]
        simp only [hid, hkey, List.filter_cons, hf, if_true, Bool.not_false, if_pos]
        cases hfetch : fetch (jsonGetD issue (chars "id") Json.null) with
        | ok detail => simp [hfetch, hid, hkey]
        | error e => simp [hfetch, hid, hkey]
    · have hf : stubFetchable issue = false := by
        simp [stubFetchable, hid]
      simp [hid, List.filter_cons, hf]

theorem validateSearchResult_fields (rd : SearchResultData) (sr : SearchResult)
    (h : validateSearchResult rd = some sr) :
    sr.issues = rd.issues ∧ sr.total = (rd.total : Int) ∧ sr.startAt = rd.startAt ∧
      sr.maxResults = rd.maxResults := by
  unfold validateSearchResult at h
  split_ifs at h
  injection h with h'
  subst h'
  exact ⟨rfl, rfl, rfl, rfl⟩

/-- C2 (amended): for a reduced-form page the workflow issues at most `N`
secondary fetches, where `N` is the number of returned stubs; and when a
`SearchResult` is returned at all, its issues sequence has length equal to
the number of stubs that carry an `"id"` and no truthy `"key"` (only those
stubs are fetched and contribute an entry), which can be strictly fewer than
`N`. -/
theorem c2_amended_fetch_bound_and_length (cfg : Settings)
    (oracle : UpstreamRequest → CallOutcome) (auth jql : List Char) (sa mr : Int)
    (fl : Option (List (List Char))) (au : Option (List Char)) (data : Json)
    (hprimary : make_request (clientBaseUrl cfg)
      (oracle (primarySearchRequest cfg auth jql sa mr fl au)) = Except.ok data)
    (hreduced : reducedForm (issuesOf data) = true) :
    search_fetch_count cfg oracle auth jql sa mr fl au ≤ (issuesOf data).length ∧
    (searchIssuesLen (client_search_issues cfg oracle auth jql sa mr fl au) = none ∨
     searchIssuesLen (client_search_issues cfg oracle auth jql sa mr fl au) =
       some ((issuesOf data).filter stubFetchable).length) := by
  unfold search_fetch_count client_search_issues search_issues_run
  simp only [hprimary, hreduced, if_true, processStubs_eq]
  constructor
  · generalize validateSearchResult _ = v
    cases v <;> exact List.length_filter_le _ _
  · generalize hv : validateSearchResult _ = v
    cases v with
    | none => left; rfl
    | some sr =>
      right
      have hf := validateSearchResult_fields _ _ hv
      show searchIssuesLen (Except.ok sr) = _
      simp [searchIssuesLen, hf.1]

/-- Witness for the amended C2 at a concrete reduced-form page with one stub. -/
theorem c2_amended_witness :
    search_fetch_count exCfg c2oracle (chars "Basic eA==") (chars "project = T") 0 50
      none none ≤ (issuesOf c2data).length ∧
    (searchIssuesLen (client_search_issues exCfg c2oracle (chars "Basic eA==")
      (chars "project = T") 0 50 none none) = none ∨
     searchIssuesLen (client_search_issues exCfg c2oracle (chars "Basic eA==")
      (chars "project = T") 0 50 none none) =
       some ((issuesOf c2data).filter stubFetchable).length) :=
  c2_amended_fetch_bound_and_length exCfg c2oracle (chars "Basic eA==")
    (chars "project = T") 0 50 none none c2data rfl rfl

/-- Counterexample to C2 as stated: a reduced-form page with `N = 1` stubs
(the stub has both an `"id"` and a truthy `"key"`) produces a `SearchResult`
whose issues sequence has length 0, not `N`, even though no secondary fetch
failed (none was issued). -/
theorem c2_counterexample :
    (issuesOf c2data).length = 1 ∧
    reducedForm (issuesOf c2data) = true ∧
    searchIssuesLen (client_search_issues exCfg c2oracle (chars "Basic eA==")
      (chars "project = T") 0 50 none none) = some 0 ∧
    search_fetch_count exCfg c2oracle (chars "Basic eA==") (chars "project = T") 0 50
      none none = 0 :=
  ⟨rfl, rfl, rfl, rfl⟩

/-- C3 (amended): whenever the search workflow returns a `SearchResult`, its
`total` equals the number of issues in the UPSTREAM page (the raw stub
count), never an upstream-provided distinct total — but not necessarily the
number of issues contained in the returned sequence, which can be smaller. -/
theorem c3_amended_total_eq_page_length (cfg : Settings)
    (oracle : UpstreamRequest → CallOutcome) (auth jql : List Char) (sa mr : Int)
    (fl : Option (List (List Char))) (au : Option (List Char)) (data : Json)
    (hprimary : make_request (clientBaseUrl cfg)
      (oracle (primarySearchRequest cfg auth jql sa mr fl au)) = Except.ok data) :
    searchTotal (client_search_issues cfg oracle auth jql sa mr fl au) = none ∨
    searchTotal (client_search_issues cfg oracle auth jql sa mr fl au) =
      some ((issuesOf data).length : Int) := by
  unfold client_search_issues search_issues_run
  simp only [hprimary]
  by_cases hr : reducedForm (issuesOf data)
  · simp only [hr, if_true]
    generalize hv : validateSearchResult _ = v
    cases v with
    | none => left; rfl
    | some sr =>
      right
      have hf := validateSearchResult_fields _ _ hv
      show searchTotal (Except.ok sr) = _
      simp [searchTotal, hf.2.1]
  · simp only [hr, Bool.false_eq_true, if_false]
    generalize hv : validateSearchResult _ = v
    cases v with
    | none => left; rfl
    | some sr =>
      right
      have hf := validateSearchResult_fields _ _ hv
      show searchTotal (Except.ok sr) = _
      simp [searchTotal, hf.2.1]

/-- Witness for the amended C3 at a concrete reduced-form page. -/
theorem c3_amended_witness :
    searchTotal (client_search_issues exCfg c3oracle (chars "Basic eA==")
      (chars "project = W") 0 50 none none) = none ∨
    searchTotal (client_search_issues exCfg c3oracle (chars "Basic eA==")
      (chars "project = W") 0 50 none none) = some ((issuesOf c3data).length : Int) :=
  c3_amended_total_eq_page_length exCfg c3oracle (chars "Basic eA==")
    (chars "project = W") 0 50 none none c3data rfl

/-- Counterexample to C3 as stated: the returned `SearchResult` has
`total = 1` while its issues sequence contains 0 issues, so `total` does not
equal the number of issues actually contained in the result. -/
theorem c3_counterexample :
    searchTotal (client_search_issues exCfg c3oracle (chars "Basic eA==")
      (chars "project = W") 0 50 none none) = some 1 ∧
    searchIssuesLen (client_search_issues exCfg c3oracle (chars "Basic eA==")
      (chars "project = W") 0 50 none none) = some 0 :=
  ⟨rfl, rfl⟩

/-- C6 (amended): a stub lacking an `"id"` key triggers no secondary fetch,
and is dropped from (not kept in) the assembled issues list: the loop behaves
exactly as if stubs without an identifier were removed from the page first. -/
theorem c6_amended_no_id_skipped_and_dropped (fetch : Json → Except PyExc Json)
    (issues : List Json) :
    processStubs fetch issues =
      processStubs fetch (issues.filter (fun i => jsonHasKey i (chars "id"))) := by
  have hfilter : (issues.filter (fun i => jsonHasKey i (chars "id"))).filter stubFetchable =
      issues.filter stubFetchable := by
    rw [List.filter_filter]
    apply List.filter_congr
    intro a _
    by_cases h : jsonHasKey a (chars "id") <;> simp [stubFetchable, h]
  rw [processStubs_eq, processStubs_eq, hfilter]

/-- Counterexample to C6 as stated: a reduced-form page whose only stub lacks
an `"id"`: no secondary fetch is issued (as claimed), but the stub is NOT
kept — the returned issues sequence is empty. -/
theorem c6_counterexample :
    reducedForm (issuesOf c6data) = true ∧
    jsonHasKey c6stub (chars "id") = false ∧
    search_fetch_count exCfg c6oracle (chars "Basic eA==") (chars "project = T") 0 50
      none none = 0 ∧
    searchIssuesLen (client_search_issues exCfg c6oracle (chars "Basic eA==")
      (chars "project = T") 0 50 none none) = some 0 :=
  ⟨rfl, rfl, rfl, rfl⟩

/-- C5: evaluation at the failing input.  The secondary-fetch loop itself
implements the claimed fallback — the stub is included in `full_issues` and
the fetch was attempted — but the stub lacks `fields`, so the subsequent
`SearchResult(**result_data)` pydantic validation raises and the whole page
aborts with a `ValidationError` instead of returning the page with the stub:
the code contradicts its own "include what we have" comment. -/
theorem c5_failed_fetch_aborts_page :
    (processStubs c5fetch [c5stub]).1 = [c5stub] ∧
    (processStubs c5fetch [c5stub]).2 = 1 ∧
    validIssue c5stub = false ∧
    client_search_issues exCfg c5oracle (chars "Basic eA==") (chars "project = T") 0 50
      none none = Except.error PyExc.pydanticError :=
  ⟨rfl, rfl, rfl, rfl⟩

/-- C1: evaluation at the failing input.  An upstream 401 on
`GET /rest/api/latest/search` is classified as `JiraAuthenticationError`, and
the registered `jira_proxy_exception_handler` would render that error as
401 / `JiraAuthenticationError`; but the route's blanket `except Exception`
converts it to `HTTPException(500)` first, so the proxy's actual response is
500 / `HTTPException`, not the mapped status and kind. -/
theorem c1_upstream401_route_response :
    search_endpoint exCfg oracle401 (chars "project = TEST") 0 50 none
      (chars "Basic dXNlcjpwdw==") =
      ProxyResponse.failure { status := 500,
                              errType := chars "HTTPException",
                              message := chars "Failed to search issues" } ∧
    render_exception (PyExc.jira JiraExcClass.authenticationE
      (chars "Invalid Jira credentials")) =
      { status := 401,
        errType := chars "JiraAuthenticationError",
        message := chars "Invalid Jira credentials" } :=
  ⟨rfl, rfl⟩

/-- C7: evaluation at the failing input.  An upstream 502 is re-raised raw by
`_make_request` (preserving status and body in the exception), and the
registered `httpx_exception_handler` would render it with the original 502
status; but the route's blanket `except Exception` converts it to
`HTTPException(500)` first, so the proxy's actual response is 500 and the
upstream status is NOT preserved. -/
theorem c7_upstream502_route_response :
    make_request (clientBaseUrl exCfg) (CallOutcome.response
      { status := 502, jsonBody := none, text := chars "Bad Gateway" }) =
      Except.error (PyExc.httpStatusError
        { status := 502, jsonBody := none, text := chars "Bad Gateway" }) ∧
    render_exception (PyExc.httpStatusError
      { status := 502, jsonBody := none, text := chars "Bad Gateway" }) =
      { status := 502,
        errType := chars "JiraAPIError",
        message := chars "Jira server error" } ∧
    search_endpoint exCfg oracle502 (chars "project = TEST") 0 50 none
      (chars "Basic dXNlcjpwdw==") =
      ProxyResponse.failure { status := 500,
                              errType := chars "HTTPException",
                              message := chars "Failed to search issues" } :=
  ⟨rfl, rfl, rfl⟩
